import Mathlib

/-
Verification development for the cTrader streaming client (src/main.py).

The source is a single Python file.  We shallowly embed the protocol core:
JSON values exchanged on the wire become the inductive type `Val`; the
dynamic Python operations (`dict.get`, the truthiness-based `or` chain,
`len`, `==` against literals, `is None`) become explicit total functions on
`Val`; the handshake body of `stream_prices` becomes a pure function from
the list of inbound (already JSON-parsed) messages to the ordered trace of
observable events (requests sent and reports printed).  Sites where the
Python code would raise an uncaught exception (attribute access on non-dict
values, `len` of a number, indexing a dict with 0, iterating a non-list)
are modelled as an explicit terminal `Ev.crash` event.

The JSON text layer (`json.dumps`/`json.loads` of the standard library) is
external to the repository; it is modelled as the identity on JSON values,
which is faithful because loads-of-dumps is the identity for every value
the program serializes.  The `uuid` generator is abstracted as an explicit
stream `u : Nat -> String` of fresh identifiers.  The pre-protocol
diagnostics (endpoint banner, `inspect_token`) have no effect on protocol
behavior and produce no modelled events.
-/

/-- JSON-like dynamic value, the result of `json.loads`; `vNone` stands for
both the Python value `None` and an absent field (the program never
distinguishes the two, it only uses `dict.get`). -/
inductive Val where
  | vNone
  | vBool (b : Bool)
  | vInt (n : Int)
  | vNum (q : Rat)
  | vStr (s : String)
  | vList (xs : List Val)
  | vObj (kvs : List (String × Val))

/-- Lookup `d.get(k)` on a dict represented as an association list with
unique keys: the value if present, `None` otherwise. -/
def objGet (kvs : List (String × Val)) (k : String) : Val :=
  match kvs.lookup k with
  | Option.some v => v
  | Option.none => Val.vNone

/-- Lookup `d.get(k, default)` with an explicit default. -/
def objGetD (kvs : List (String × Val)) (k : String) (d : Val) : Val :=
  match kvs.lookup k with
  | Option.some v => v
  | Option.none => d

/-- Truthiness of a JSON value under Python rules. -/
def truthy : Val → Bool
  | Val.vNone => false
  | Val.vBool b => b
  | Val.vInt n => !(n == 0)
  | Val.vNum q => !(q == 0)
  | Val.vStr s => !(s == "")
  | Val.vList xs => !xs.isEmpty
  | Val.vObj kvs => !kvs.isEmpty

/-- Short-circuit `a or b` under Python rules: `a` when truthy, else `b`. -/
def pyOr (a b : Val) : Val :=
  if truthy a then a else b

/-- Test `v is None`. -/
def Val.isNone : Val → Bool
  | Val.vNone => true
  | _ => false

/-- Attribute access `v.get(k)` where `v` is known to be a dict (the
callers guard the non-dict crash separately). -/
def Val.get : Val → String → Val
  | Val.vObj kvs, k => objGet kvs k
  | _, _ => Val.vNone

/-- Comparison `v == n` against an integer literal `n` (numeric cross-type
equality: ints, floats and bools compare by value; everything else is
unequal). -/
def pyEqInt (v : Val) (n : Int) : Bool :=
  match v with
  | Val.vInt m => m == n
  | Val.vNum q => q == (n : Rat)
  | Val.vBool b => (if b then (1 : Int) else 0) == n
  | _ => false

/-- Comparison `v == s` against a string literal `s`. -/
def pyEqStr (v : Val) (s : String) : Bool :=
  match v with
  | Val.vStr t => t == s
  | _ => false

/-- Length `len(v)`: defined for strings, lists and dicts, a TypeError
(modelled as `none`) otherwise. -/
def pyLen : Val → Option Nat
  | Val.vStr s => Option.some s.length
  | Val.vList xs => Option.some xs.length
  | Val.vObj kvs => Option.some kvs.length
  | _ => Option.none

/-- Configured target instrument name (`SYMBOL` in the source, line 13). -/
def SYMBOL : String := "EURUSD"

/-- Envelope construction `make_msg` (line 18): wraps a payload into the
wire envelope.  `fresh` stands for the generated uuid string; the source
expression `client_msg_id or str(uuid.uuid4())` falls back to the fresh id
when the supplied id is `None` or empty. -/
def make_msg (payload_type : Int) (payload : Val) (client_msg_id : Option String)
    (fresh : String) : Val :=
  Val.vObj
    [ ("clientMsgId",
        Val.vStr (match client_msg_id with
          | Option.some s => if s == "" then fresh else s
          | Option.none => fresh)),
      ("payloadType", Val.vInt payload_type),
      ("payload", payload) ]

/-- Request builder `application_auth_req` (line 25): 2100
ProtoOAApplicationAuthReq. -/
def application_auth_req (client_id client_secret : String) (fresh : String) : Val :=
  make_msg 2100
    (Val.vObj [("clientId", Val.vStr client_id), ("clientSecret", Val.vStr client_secret)])
    Option.none fresh

/-- Request builder `get_accounts_by_token_req` (line 29): 2149
ProtoOAGetAccountsByAccessTokenReq. -/
def get_accounts_by_token_req (access_token : String) (fresh : String) : Val :=
  make_msg 2149 (Val.vObj [("accessToken", Val.vStr access_token)]) Option.none fresh

/-- Request builder `account_auth_req` (line 33): 2102 ProtoOAAccountAuthReq.
The account id is a dynamic value extracted from a payload, hence `Val`. -/
def account_auth_req (ctid_trader_account_id : Val) (access_token : String)
    (fresh : String) : Val :=
  make_msg 2102
    (Val.vObj [("ctidTraderAccountId", ctid_trader_account_id),
               ("accessToken", Val.vStr access_token)])
    Option.none fresh

/-- Request builder `symbols_list_req` (line 37): 2114 ProtoOASymbolsListReq.
In the source `include_archived` has the default value false; the one call
site uses that default, modelled by passing `false` explicitly. -/
def symbols_list_req (ctid_trader_account_id : Val) (include_archived : Bool)
    (fresh : String) : Val :=
  make_msg 2114
    (Val.vObj [("ctidTraderAccountId", ctid_trader_account_id),
               ("includeArchivedSymbols", Val.vBool include_archived)])
    Option.none fresh

/-- Request builder `subscribe_spots_req` (line 41): 2127
ProtoOASubscribeSpotsReq. -/
def subscribe_spots_req (ctid_trader_account_id symbol_id : Val) (fresh : String) : Val :=
  make_msg 2127
    (Val.vObj [("ctidTraderAccountId", ctid_trader_account_id),
               ("symbolId", symbol_id)])
    Option.none fresh

/-- Inbound envelope decoding as the source performs it (lines 92-93 and
the analogous sites): after `json.loads`, read the discriminant with
`.get("payloadType")` and the payload with `.get("payload", dict())`, the
default being the empty dict.  On a non-dict value the attribute access
raises. -/
def decode (v : Val) : Except String (Val × Val) :=
  match v with
  | Val.vObj d => Except.ok (objGet d "payloadType", objGetD d "payload" (Val.vObj []))
  | _ => Except.error "AttributeError: get on non-dict message"

/-- Account-list extraction (lines 106-113): `traderAccounts` first, used
as-is whenever present; only under the fallback key `ctidTraderAccount` is
a bare dict wrapped into a one-element list and `None` replaced by the
empty list. -/
def extract_accounts (p : List (String × Val)) : Val :=
  match objGet p "traderAccounts" with
  | Val.vNone =>
    match objGet p "ctidTraderAccount" with
    | Val.vObj o => Val.vList [Val.vObj o]
    | Val.vNone => Val.vList []
    | v => v
  | v => v

/-- Account-id extraction from the first account entry (line 128): the
expression `accounts[0].get("ctidTraderAccountId") or accounts[0].get("accountId")`. -/
def extract_account_id (a : List (String × Val)) : Val :=
  pyOr (objGet a "ctidTraderAccountId") (objGet a "accountId")

/-- Symbol-list extraction (lines 158-160): `payload.get("symbols")`, and
only when that is `None` (absent or null) `payload.get("symbol")`. -/
def extract_symbols (p : List (String × Val)) : Val :=
  if (objGet p "symbols").isNone then objGet p "symbol" else objGet p "symbols"

/-- Quote-timestamp extraction (line 205): the expression
`p.get("timestamp") or p.get("time") or p.get("timestampInMs")`. -/
def extract_ts (p : List (String × Val)) : Val :=
  pyOr (pyOr (objGet p "timestamp") (objGet p "time")) (objGet p "timestampInMs")

/-- Exact-pass match predicate of the resolver (lines 167-171): the test
`(s.get("symbolName") or s.get("name")) == SYMBOL or s.get("displayName") == SYMBOL`,
case-sensitive. -/
def exactMatch (target : String) (s : Val) : Bool :=
  pyEqStr (pyOr (s.get "symbolName") (s.get "name")) target
    || pyEqStr (s.get "displayName") target

/-- String content of a `vStr`, empty otherwise (used to state the total
version of the case-insensitive match). -/
def strOrEmpty : Val → String
  | Val.vStr s => s
  | _ => ""

/-- Total version of the case-insensitive match predicate (lines 175-178),
meaningful when the name fields are strings or absent. -/
def ciMatch (target : String) (s : Val) : Bool :=
  (strOrEmpty (pyOr (pyOr (s.get "symbolName") (s.get "name")) (Val.vStr ""))).toUpper
      == target.toUpper
    || (strOrEmpty (pyOr (s.get "displayName") (Val.vStr ""))).toUpper == target.toUpper

/-- Case-insensitive match as executed (lines 176-178): calling `.upper()`
raises on a truthy non-string field value, modelled as an error. -/
def ciMatchE (target : String) (s : Val) : Except String Bool :=
  match pyOr (pyOr (s.get "symbolName") (s.get "name")) (Val.vStr "") with
  | Val.vStr n =>
    match pyOr (s.get "displayName") (Val.vStr "") with
    | Val.vStr d =>
      Except.ok (n.toUpper == target.toUpper || d.toUpper == target.toUpper)
    | _ => Except.error "AttributeError: upper on non-string"
  | _ => Except.error "AttributeError: upper on non-string"

/-- First resolver pass (lines 166-172): first descriptor matching exactly,
`vNone` when none does; `.get` on a non-dict element raises. -/
def pass1 (target : String) : List Val → Except String Val
  | [] => Except.ok Val.vNone
  | s :: rest =>
    match s with
    | Val.vObj kvs =>
      if exactMatch target (Val.vObj kvs) then Except.ok (Val.vObj kvs)
      else pass1 target rest
    | _ => Except.error "AttributeError: get on non-dict symbol descriptor"

/-- Second resolver pass (lines 173-180): first descriptor matching
case-insensitively. -/
def pass2 (target : String) : List Val → Except String Val
  | [] => Except.ok Val.vNone
  | s :: rest =>
    match s with
    | Val.vObj kvs =>
      match ciMatchE target (Val.vObj kvs) with
      | Except.error m => Except.error m
      | Except.ok true => Except.ok (Val.vObj kvs)
      | Except.ok false => pass2 target rest
    | _ => Except.error "AttributeError: get on non-dict symbol descriptor"

/-- Full symbol resolution (lines 166-180): the exact pass runs first and
the case-insensitive pass runs only when it produced nothing truthy
(`if not target:` in the source). -/
def resolveSymbol (target : String) (symbols : List Val) : Except String Val :=
  match pass1 target symbols with
  | Except.error m => Except.error m
  | Except.ok t1 => if truthy t1 then Except.ok t1 else pass2 target symbols

/-- Field value that is a string or absent (for resolver reasoning). -/
def fieldOk : Val → Bool
  | Val.vNone => true
  | Val.vStr _ => true
  | _ => false

/-- Descriptor that is a dict whose three name fields are strings or
absent. -/
def wellFormedSym (s : Val) : Bool :=
  match s with
  | Val.vObj _ =>
    fieldOk (s.get "symbolName") && fieldOk (s.get "name") && fieldOk (s.get "displayName")
  | _ => false

/-- Observable events of one session: requests sent on the socket and the
structured reports the source prints, in program order.  `blocked` marks a
receive with no further inbound message (the source would block forever);
`crash` marks a site where the Python code raises an uncaught exception. -/
inductive Ev where
  | send (req : Val)
  | missingCredentials
  | missingToken
  | unexpectedAppAuth (data : Val)
  | appAuthOk
  | unexpectedAccounts (data : Val)
  | accountsInfo (count : Nat) (keys : List String)
  | noAccountsForToken
  | noAccountId (first : Val)
  | usingAccount (id : Val)
  | unexpectedAccountAuth (data : Val)
  | accountAuthOk
  | symbolsListError (payload : Val)
  | unexpectedSymbols (data : Val)
  | symbolsKeys (keys : List String)
  | noSymbols (payload : Val)
  | symbolNotFound (symbol : String)
  | missingSymbolId (target : Val)
  | foundSymbol (symbol : String) (id : Val)
  | subscribeSent (symbol : String) (id : Val)
  | quote (bid ask ts : Val)
  | subscribeConfirmed
  | errorEvent (payload : Val)
  | connectionClosed
  | blocked
  | crash (site : String)

/-- One iteration of the streaming loop body (lines 198-213): classify the
decoded message by discriminant; 2131 reports a quote, 2128 a confirmation,
2142 the error payload, anything else is ignored. -/
def handleEvent (data : Val) : Except String (List Ev) :=
  match data with
  | Val.vObj d =>
    if pyEqInt (objGet d "payloadType") 2131 then
      match objGetD d "payload" (Val.vObj []) with
      | Val.vObj p =>
        Except.ok [Ev.quote (objGet p "bid") (objGet p "ask") (extract_ts p)]
      | _ => Except.error "AttributeError: get on non-dict payload"
    else if pyEqInt (objGet d "payloadType") 2128 then
      Except.ok [Ev.subscribeConfirmed]
    else if pyEqInt (objGet d "payloadType") 2142 then
      Except.ok [Ev.errorEvent (objGetD d "payload" (Val.vObj []))]
    else Except.ok []
  | _ => Except.error "AttributeError: get on non-dict message"

/-- Streaming loop (lines 196-216): handles every inbound message in
order; exhaustion of the inbound list is the transport signalling closure,
reported as normal termination; an uncaught exception ends the program. -/
def streamLoop : List Val → List Ev
  | [] => [Ev.connectionClosed]
  | d :: rest =>
    match handleEvent d with
    | Except.ok evs => evs ++ streamLoop rest
    | Except.error m => [Ev.crash m]

/-- Processing of the symbols-list response payload onwards (lines
155-216): extract the symbol list, resolve the target, subscribe, stream.
Factored out because the source reaches this point both on a 2115 response
and, by fall-through, on a 2142 response. -/
def symbolsPhase (symbol : String) (account_id : Val) (u : Nat → String)
    (d4 : List (String × Val)) (rest : List Val) : List Ev :=
  match objGetD d4 "payload" (Val.vObj []) with
  | Val.vObj p =>
    Ev.symbolsKeys (p.map Prod.fst) ::
    (if !truthy (extract_symbols p) then [Ev.noSymbols (Val.vObj p)]
     else
       match extract_symbols p with
       | Val.vList xs =>
         match resolveSymbol symbol xs with
         | Except.error m => [Ev.crash m]
         | Except.ok tgt =>
           if !truthy tgt then [Ev.symbolNotFound symbol]
           else if (tgt.get "symbolId").isNone then [Ev.missingSymbolId tgt]
           else
             Ev.foundSymbol symbol (tgt.get "symbolId") ::
             Ev.send (subscribe_spots_req account_id (tgt.get "symbolId") (u 4)) ::
             Ev.subscribeSent symbol (tgt.get "symbolId") ::
             streamLoop rest
       | _ => [Ev.crash "TypeError or AttributeError: symbols value not a descriptor list"])
  | _ => [Ev.crash "AttributeError: keys on non-dict payload"]

/-- Processing from the accounts-by-token payload onwards (lines 105-216):
extract the account list, pick the account id, account-auth, symbols-list
(with the 2142 fall-through of lines 147-154), then `symbolsPhase`. -/
def accountsPhase (access_token symbol : String) (u : Nat → String)
    (p2 : List (String × Val)) (rest2 : List Val) : List Ev :=
  match pyLen (extract_accounts p2) with
  | Option.none => [Ev.crash "TypeError: len of accounts value"]
  | Option.some n =>
    Ev.accountsInfo n (p2.map Prod.fst) ::
    (if !truthy (extract_accounts p2) then [Ev.noAccountsForToken]
     else
       match extract_accounts p2 with
       | Val.vList [] => [Ev.crash "IndexError: accounts index 0"]
       | Val.vList (a :: _) =>
         match a with
         | Val.vObj a0 =>
           if (extract_account_id a0).isNone then [Ev.noAccountId a]
           else
             Ev.usingAccount (extract_account_id a0) ::
             Ev.send (account_auth_req (extract_account_id a0) access_token (u 2)) ::
             (match rest2 with
              | [] => [Ev.blocked]
              | data3 :: rest3 =>
                match data3 with
                | Val.vObj d3 =>
                  if !pyEqInt (objGet d3 "payloadType") 2103 then
                    [Ev.unexpectedAccountAuth (Val.vObj d3)]
                  else
                    Ev.accountAuthOk ::
                    Ev.send (symbols_list_req (extract_account_id a0) false (u 3)) ::
                    (match rest3 with
                     | [] => [Ev.blocked]
                     | data4 :: rest4 =>
                       match data4 with
                       | Val.vObj d4 =>
                         if pyEqInt (objGet d4 "payloadType") 2115 then
                           symbolsPhase symbol (extract_account_id a0) u d4 rest4
                         else if pyEqInt (objGet d4 "payloadType") 2142 then
                           Ev.symbolsListError (objGetD d4 "payload" (Val.vObj [])) ::
                           symbolsPhase symbol (extract_account_id a0) u d4 rest4
                         else [Ev.unexpectedSymbols (Val.vObj d4)]
                       | _ => [Ev.crash "AttributeError: get on non-dict message"])
                | _ => [Ev.crash "AttributeError: get on non-dict message"])
         | _ => [Ev.crash "AttributeError: accounts first entry not a dict"]
       | Val.vStr _ => [Ev.crash "AttributeError: accounts value is a string"]
       | _ => [Ev.crash "KeyError or TypeError: accounts index 0"])

/-- Whole of `stream_prices` (lines 74-216) as a pure function from the
configuration and the ordered list of inbound parsed messages to the trace
of observable events. -/
def stream_prices (client_id client_secret access_token symbol : String)
    (u : Nat → String) (inbound : List Val) : List Ev :=
  if client_id == "" || client_secret == "" then [Ev.missingCredentials]
  else if access_token == "" then [Ev.missingToken]
  else
    Ev.send (application_auth_req client_id client_secret (u 0)) ::
    (match inbound with
     | [] => [Ev.blocked]
     | data1 :: rest1 =>
       match data1 with
       | Val.vObj d1 =>
         if !pyEqInt (objGet d1 "payloadType") 2101 then
           [Ev.unexpectedAppAuth (Val.vObj d1)]
         else
           Ev.appAuthOk ::
           Ev.send (get_accounts_by_token_req access_token (u 1)) ::
           (match rest1 with
            | [] => [Ev.blocked]
            | data2 :: rest2 =>
              match data2 with
              | Val.vObj d2 =>
                if !pyEqInt (objGet d2 "payloadType") 2150 then
                  [Ev.unexpectedAccounts (Val.vObj d2)]
                else
                  match objGetD d2 "payload" (Val.vObj []) with
                  | Val.vObj p2 => accountsPhase access_token symbol u p2 rest2
                  | _ => [Ev.crash "AttributeError: get on non-dict payload"]
              | _ => [Ev.crash "AttributeError: get on non-dict message"])
       | _ => [Ev.crash "AttributeError: get on non-dict message"])

/-- Helper: a truthy value absorbs the right operand of `pyOr`. -/
theorem pyOr_truthy (v w : Val) (hv : truthy v = true) : pyOr v w = v := by
  simp [pyOr, hv]

/-- Helper: a truthy value is not `None`. -/
theorem isNone_false_of_truthy (v : Val) (hv : truthy v = true) : v.isNone = false := by
  cases v <;> simp_all [truthy, Val.isNone]

/-- Helper: a well-formed descriptor is a dict. -/
theorem wf_obj (s : Val) (h : wellFormedSym s = true) : ∃ kvs, s = Val.vObj kvs := by
  cases s <;> simp_all [wellFormedSym]

/-- Helper: a descriptor matched by the exact pass is truthy (it has at
least the matched field). -/
theorem truthy_of_exactMatch (t : String) (kvs : List (String × Val))
    (h : exactMatch t (Val.vObj kvs) = true) : truthy (Val.vObj kvs) = true := by
  cases kvs with
  | nil => simp [show exactMatch t (Val.vObj []) = false from rfl] at h
  | cons a l => rfl

/-- Helper: shape analysis of a string-or-absent field value. -/
theorem fieldOk_cases (v : Val) (h : fieldOk v = true) :
    v = Val.vNone ∨ ∃ s, v = Val.vStr s := by
  cases v <;> simp_all [fieldOk]

/-- Helper: `pyOr` preserves string-or-absent field values. -/
theorem pyOr_fieldOk (a b : Val) (ha : fieldOk a = true) (hb : fieldOk b = true) :
    fieldOk (pyOr a b) = true := by
  unfold pyOr; split <;> assumption

/-- Helper: appending the empty-string default makes a string-or-absent
field value a string. -/
theorem fieldOk_orEmpty (a : Val) (ha : fieldOk a = true) :
    ∃ n, pyOr a (Val.vStr "") = Val.vStr n := by
  rcases fieldOk_cases a ha with rfl | ⟨s, rfl⟩
  · exact ⟨"", rfl⟩
  · unfold pyOr
    by_cases hs : truthy (Val.vStr s) = true
    · rw [hs]; exact ⟨s, if_pos rfl⟩
    · simp [hs]

/-- Helper: on well-formed descriptors the executed case-insensitive match
does not raise and agrees with the total predicate `ciMatch`. -/
theorem ciMatchE_eq_ok (t : String) (s : Val) (h : wellFormedSym s = true) :
    ciMatchE t s = Except.ok (ciMatch t s) := by
  obtain ⟨kvs, rfl⟩ := wf_obj s h
  simp only [wellFormedSym, Bool.and_eq_true] at h
  obtain ⟨⟨h1, h2⟩, h3⟩ := h
  obtain ⟨n, hn⟩ := fieldOk_orEmpty _ (pyOr_fieldOk _ _ h1 h2)
  obtain ⟨d, hd⟩ := fieldOk_orEmpty _ h3
  simp [ciMatchE, ciMatch, hn, hd, strOrEmpty]

/-- Helper: on well-formed descriptors the exact pass returns the first
descriptor satisfying `exactMatch`, in list order. -/
theorem pass1_eq (t : String) (xs : List Val) (h : xs.all wellFormedSym = true) :
    pass1 t xs = Except.ok ((xs.find? (exactMatch t)).getD Val.vNone) := by
  induction xs with
  | nil => rfl
  | cons s rest ih =>
    simp only [List.all_cons, Bool.and_eq_true] at h
    obtain ⟨hs, hrest⟩ := h
    obtain ⟨kvs, rfl⟩ := wf_obj s hs
    by_cases hm : exactMatch t (Val.vObj kvs) = true
    · simp [pass1, hm, List.find?_cons_of_pos _ hm]
    · simp only [Bool.not_eq_true] at hm
      simp [pass1, hm, List.find?_cons_of_neg, ih hrest]

/-- Helper: on well-formed descriptors the case-insensitive pass returns
the first descriptor satisfying `ciMatch`, in list order. -/
theorem pass2_eq (t : String) (xs : List Val) (h : xs.all wellFormedSym = true) :
    pass2 t xs = Except.ok ((xs.find? (ciMatch t)).getD Val.vNone) := by
  induction xs with
  | nil => rfl
  | cons s rest ih =>
    simp only [List.all_cons, Bool.and_eq_true] at h
    obtain ⟨hs, hrest⟩ := h
    obtain ⟨kvs, rfl⟩ := wf_obj s hs
    have he := ciMatchE_eq_ok t (Val.vObj kvs) hs
    by_cases hm : ciMatch t (Val.vObj kvs) = true
    · rw [hm] at he
      simp [pass2, he, List.find?_cons_of_pos _ hm]
    · simp only [Bool.not_eq_true] at hm
      rw [hm] at he
      simp [pass2, he, List.find?_cons_of_neg, ih hrest, hm]

/-- C1 (code bug): on the failing input, after the symbols-list request is
answered with discriminant 2142 the source prints the remote error payload
but, lacking an early return in that branch (lines 149-151), continues the
payload extraction, resolves the symbol from the error payload, and sends
the subscribe request — contradicting the specified unconditional abort.
This theorem evaluates the embedded code on the failing input: the trace
contains `symbolsListError` followed by further extraction events and a
`send` of the subscribe request. -/
theorem symbols_2142_falls_through :
    stream_prices "i" "s" "t" SYMBOL (fun _ => "m")
      [ Val.vObj [("payloadType", Val.vInt 2101)],
        Val.vObj [("payloadType", Val.vInt 2150),
                  ("payload", Val.vObj [("traderAccounts",
                     Val.vList [Val.vObj [("ctidTraderAccountId", Val.vInt 7)]])])],
        Val.vObj [("payloadType", Val.vInt 2103)],
        Val.vObj [("payloadType", Val.vInt 2142),
                  ("payload", Val.vObj [("symbols",
                     Val.vList [Val.vObj [("symbolName", Val.vStr "EURUSD"),
                                          ("symbolId", Val.vInt 1)]])])] ] =
    [ Ev.send (application_auth_req "i" "s" "m"),
      Ev.appAuthOk,
      Ev.send (get_accounts_by_token_req "t" "m"),
      Ev.accountsInfo 1 ["traderAccounts"],
      Ev.usingAccount (Val.vInt 7),
      Ev.send (account_auth_req (Val.vInt 7) "t" "m"),
      Ev.accountAuthOk,
      Ev.send (symbols_list_req (Val.vInt 7) false "m"),
      Ev.symbolsListError (Val.vObj [("symbols",
        Val.vList [Val.vObj [("symbolName", Val.vStr "EURUSD"),
                             ("symbolId", Val.vInt 1)]])]),
      Ev.symbolsKeys ["symbols"],
      Ev.foundSymbol SYMBOL (Val.vInt 1),
      Ev.send (subscribe_spots_req (Val.vInt 7) (Val.vInt 1) "m"),
      Ev.subscribeSent SYMBOL (Val.vInt 1),
      Ev.connectionClosed ] := rfl

/-- C2 (counterexample): decoding does not yield the same logical value
regardless of which alias is present.  The timestamp value 0 decodes to
`None` when under the first alias `timestamp` but to 0 when under the last
alias `timestampInMs`, because the `or` chain skips present-but-falsy
fields; likewise a present `ctidTraderAccountId` of 0 is skipped in favor
of `accountId`, so the consulted field is not the first present one. -/
theorem aliased_fields_falsy_counterexample :
    extract_ts [("timestamp", Val.vInt 0)] = Val.vNone
  ∧ extract_ts [("timestampInMs", Val.vInt 0)] = Val.vInt 0
  ∧ extract_ts [("timestamp", Val.vInt 0)] ≠ extract_ts [("timestampInMs", Val.vInt 0)]
  ∧ extract_account_id [("ctidTraderAccountId", Val.vInt 0), ("accountId", Val.vInt 5)] =
      Val.vInt 5 :=
  ⟨rfl, rfl, fun h => Val.noConfusion h, rfl⟩

/-- C2 (amended): for truthy values the aliased-field decoding is
variant-independent and consults exactly one field, the first in the fixed
precedence order `ctidTraderAccountId` before `accountId`, `timestamp`
before `time` before `timestampInMs`, `symbols` before `symbol`; the
symbol-list alias alone is presence-based (its second conjunct group holds
for arbitrary, even falsy, values). -/
theorem aliased_fields_truthy (v w z : Val) (hv : truthy v = true) :
    extract_account_id [("ctidTraderAccountId", v)] = v
  ∧ extract_account_id [("accountId", v)] = v
  ∧ extract_account_id [("ctidTraderAccountId", v), ("accountId", w)] = v
  ∧ extract_ts [("timestamp", v)] = v
  ∧ extract_ts [("time", v)] = v
  ∧ extract_ts [("timestampInMs", v)] = v
  ∧ extract_ts [("timestamp", v), ("time", w), ("timestampInMs", z)] = v
  ∧ extract_symbols [("symbols", v)] = v
  ∧ extract_symbols [("symbol", w)] = w
  ∧ extract_symbols [("symbols", v), ("symbol", w)] = v := by
  have hn := isNone_false_of_truthy v hv
  refine ⟨?_, rfl, ?_, ?_, ?_, rfl, ?_, ?_, rfl, ?_⟩
  · exact pyOr_truthy v Val.vNone hv
  · exact pyOr_truthy v w hv
  · show pyOr (pyOr v Val.vNone) Val.vNone = v
    rw [pyOr_truthy v Val.vNone hv, pyOr_truthy v Val.vNone hv]
  · show pyOr (pyOr Val.vNone v) Val.vNone = v
    have e : pyOr Val.vNone v = v := rfl
    rw [e, pyOr_truthy v Val.vNone hv]
  · show pyOr (pyOr v w) z = v
    rw [pyOr_truthy v w hv, pyOr_truthy v z hv]
  · have e : objGet [("symbols", v)] "symbols" = v := rfl
    simp [extract_symbols, e, hn]
  · have e : objGet [("symbols", v), ("symbol", w)] "symbols" = v := rfl
    simp [extract_symbols, e, hn]

/-- C2 witness: the amended decoding law evaluated at the truthy account id
and timestamp value 7 (with 9 and 3 under the lower-precedence aliases). -/
theorem aliased_fields_truthy_witness :
    truthy (Val.vInt 7) = true
  ∧ (extract_account_id [("ctidTraderAccountId", Val.vInt 7)] = Val.vInt 7
  ∧ extract_account_id [("accountId", Val.vInt 7)] = Val.vInt 7
  ∧ extract_account_id [("ctidTraderAccountId", Val.vInt 7), ("accountId", Val.vInt 9)] =
      Val.vInt 7
  ∧ extract_ts [("timestamp", Val.vInt 7)] = Val.vInt 7
  ∧ extract_ts [("time", Val.vInt 7)] = Val.vInt 7
  ∧ extract_ts [("timestampInMs", Val.vInt 7)] = Val.vInt 7
  ∧ extract_ts [("timestamp", Val.vInt 7), ("time", Val.vInt 9),
                ("timestampInMs", Val.vInt 3)] = Val.vInt 7
  ∧ extract_symbols [("symbols", Val.vInt 7)] = Val.vInt 7
  ∧ extract_symbols [("symbol", Val.vInt 9)] = Val.vInt 9
  ∧ extract_symbols [("symbols", Val.vInt 7), ("symbol", Val.vInt 9)] = Val.vInt 7) :=
  ⟨rfl, aliased_fields_truthy (Val.vInt 7) (Val.vInt 9) (Val.vInt 3) rfl⟩

/-- C3: symbol resolution performs the case-sensitive exact pass over
symbolName/name and displayName strictly before the case-insensitive pass,
and within each pass the first matching descriptor in list order wins: on
well-formed descriptor lists the resolver equals the first exact match when
one exists, else the first case-insensitive match, else not-found; and on
the descriptors [(name EURUSD), (displayName eurusd)] with target EURUSD
the first descriptor is chosen. -/
theorem resolver_exact_precedes_ci :
    (∀ (t : String) (xs : List Val), xs.all wellFormedSym = true →
      resolveSymbol t xs =
        Except.ok (((xs.find? (exactMatch t)).or (xs.find? (ciMatch t))).getD Val.vNone))
  ∧ resolveSymbol "EURUSD"
      [Val.vObj [("name", Val.vStr "EURUSD")], Val.vObj [("displayName", Val.vStr "eurusd")]] =
      Except.ok (Val.vObj [("name", Val.vStr "EURUSD")]) := by
  constructor
  · intro t xs h
    rw [resolveSymbol, pass1_eq t xs h]
    cases hf : xs.find? (exactMatch t) with
    | none =>
      simp [truthy, pass2_eq t xs h, hf]
    | some s =>
      have hpred := List.find?_some hf
      have hmem := List.mem_of_find?_eq_some hf
      have hwf : wellFormedSym s = true := by
        rw [List.all_eq_true] at h
        exact h s hmem
      obtain ⟨kvs, rfl⟩ := wf_obj s hwf
      simp [truthy_of_exactMatch t kvs hpred]
  · rfl

/-- C3 witness: the resolver characterization applied to a concrete
well-formed one-descriptor list, where the exact pass finds the match. -/
theorem resolver_exact_precedes_ci_witness :
    ([Val.vObj [("symbolName", Val.vStr "EURUSD"), ("symbolId", Val.vInt 5)]].all
        wellFormedSym = true)
  ∧ resolveSymbol "EURUSD"
      [Val.vObj [("symbolName", Val.vStr "EURUSD"), ("symbolId", Val.vInt 5)]] =
      Except.ok (Val.vObj [("symbolName", Val.vStr "EURUSD"), ("symbolId", Val.vInt 5)]) :=
  ⟨rfl, resolver_exact_precedes_ci.1 "EURUSD"
    [Val.vObj [("symbolName", Val.vStr "EURUSD"), ("symbolId", Val.vInt 5)]] rfl⟩

/-- C4: if the response to the application-auth request has any
discriminant other than 2101, the session reports it as unexpected and
stops; the complete trace holds exactly one sent request (the application
auth), so no further request is transmitted. -/
theorem app_auth_mismatch_aborts (ci cs tok symbol : String) (u : Nat → String)
    (d1 : List (String × Val)) (rest : List Val)
    (h1 : (ci == "") = false) (h2 : (cs == "") = false) (h3 : (tok == "") = false)
    (h4 : pyEqInt (objGet d1 "payloadType") 2101 = false) :
    stream_prices ci cs tok symbol u (Val.vObj d1 :: rest) =
      [Ev.send (application_auth_req ci cs (u 0)), Ev.unexpectedAppAuth (Val.vObj d1)] := by
  simp [stream_prices, h1, h2, h3, h4]

/-- C4 witness: the abort evaluated at a concrete 2102 response. -/
theorem app_auth_mismatch_aborts_witness :
    pyEqInt (objGet [("payloadType", Val.vInt 2102)] "payloadType") 2101 = false
  ∧ stream_prices "i" "s" "t" "EURUSD" (fun _ => "m")
      [Val.vObj [("payloadType", Val.vInt 2102)]] =
      [Ev.send (application_auth_req "i" "s" "m"),
       Ev.unexpectedAppAuth (Val.vObj [("payloadType", Val.vInt 2102)])] :=
  ⟨rfl, app_auth_mismatch_aborts "i" "s" "t" "EURUSD" (fun _ => "m")
    [("payloadType", Val.vInt 2102)] [] rfl rfl rfl rfl⟩

/-- C5: when the accounts-by-token response carries an empty account list,
the session reports the accounts diagnostics and the no-accounts-for-token
diagnosis and stops; the complete trace holds exactly two sent requests
(application auth and accounts-by-token), so no account-auth request nor
any later request is transmitted. -/
theorem empty_accounts_aborts (ci cs tok symbol : String) (u : Nat → String)
    (d1 d2 p : List (String × Val)) (rest : List Val)
    (h1 : (ci == "") = false) (h2 : (cs == "") = false) (h3 : (tok == "") = false)
    (h4 : pyEqInt (objGet d1 "payloadType") 2101 = true)
    (h5 : pyEqInt (objGet d2 "payloadType") 2150 = true)
    (h6 : objGetD d2 "payload" (Val.vObj []) = Val.vObj p)
    (h7 : extract_accounts p = Val.vList []) :
    stream_prices ci cs tok symbol u (Val.vObj d1 :: Val.vObj d2 :: rest) =
      [Ev.send (application_auth_req ci cs (u 0)), Ev.appAuthOk,
       Ev.send (get_accounts_by_token_req tok (u 1)),
       Ev.accountsInfo 0 (p.map Prod.fst), Ev.noAccountsForToken] := by
  simp [stream_prices, h1, h2, h3, h4, h5, h6, accountsPhase, h7, pyLen, truthy]

/-- C5 witness: the abort evaluated at a concrete accounts response whose
traderAccounts list is empty. -/
theorem empty_accounts_aborts_witness :
    extract_accounts [("traderAccounts", Val.vList [])] = Val.vList []
  ∧ stream_prices "i" "s" "t" "EURUSD" (fun _ => "m")
      [Val.vObj [("payloadType", Val.vInt 2101)],
       Val.vObj [("payloadType", Val.vInt 2150),
                 ("payload", Val.vObj [("traderAccounts", Val.vList [])])]] =
      [Ev.send (application_auth_req "i" "s" "m"), Ev.appAuthOk,
       Ev.send (get_accounts_by_token_req "t" "m"),
       Ev.accountsInfo 0 ["traderAccounts"], Ev.noAccountsForToken] :=
  ⟨rfl, empty_accounts_aborts "i" "s" "t" "EURUSD" (fun _ => "m")
    [("payloadType", Val.vInt 2101)]
    [("payloadType", Val.vInt 2150), ("payload", Val.vObj [("traderAccounts", Val.vList [])])]
    [("traderAccounts", Val.vList [])] [] rfl rfl rfl rfl rfl rfl rfl⟩

/-- C6: on the inbound stream [(2131, bid 1.1 ask 1.2 timestamp 100),
(9999, empty), (2142, code X)] the dispatcher emits exactly two reports —
one quote with bid 1.1, ask 1.2, timestamp 100 and one remote-error report
— the unrecognized discriminant 9999 produces no report, and the loop
continues past every envelope up to normal closure. -/
theorem dispatcher_three_envelopes :
    streamLoop
      [ Val.vObj [("payloadType", Val.vInt 2131),
                  ("payload", Val.vObj [("bid", Val.vNum 1.1), ("ask", Val.vNum 1.2),
                                        ("timestamp", Val.vInt 100)])],
        Val.vObj [("payloadType", Val.vInt 9999), ("payload", Val.vObj [])],
        Val.vObj [("payloadType", Val.vInt 2142),
                  ("payload", Val.vObj [("code", Val.vStr "X")])] ] =
      [ Ev.quote (Val.vNum 1.1) (Val.vNum 1.2) (Val.vInt 100),
        Ev.errorEvent (Val.vObj [("code", Val.vStr "X")]),
        Ev.connectionClosed ]
  ∧ handleEvent (Val.vObj [("payloadType", Val.vInt 9999), ("payload", Val.vObj [])]) =
      Except.ok [] :=
  ⟨rfl, rfl⟩

/-- C7 (counterexample): a single account object under `traderAccounts` is
not normalized to a one-element list — the extraction returns the bare dict
as-is, unequal to the extraction of the one-element-list payload (the
subsequent `accounts[0]` then raises instead of yielding the account). -/
theorem traderAccounts_object_counterexample :
    extract_accounts [("traderAccounts", Val.vObj [("accountId", Val.vInt 5)])] =
      Val.vObj [("accountId", Val.vInt 5)]
  ∧ extract_accounts [("traderAccounts", Val.vList [Val.vObj [("accountId", Val.vInt 5)]])] =
      Val.vList [Val.vObj [("accountId", Val.vInt 5)]]
  ∧ extract_accounts [("traderAccounts", Val.vObj [("accountId", Val.vInt 5)])] ≠
      extract_accounts [("traderAccounts", Val.vList [Val.vObj [("accountId", Val.vInt 5)]])] :=
  ⟨rfl, rfl, fun h => Val.noConfusion h⟩

/-- C7 (amended): both accepted field names for the account list are
tolerated; the single-object normalization applies only under the fallback
field `ctidTraderAccount`, where a bare account object yields the same
one-element list as a one-element list does; under `traderAccounts` the
value is used as-is. -/
theorem extract_accounts_characterization (o : List (String × Val)) (l : List Val) :
    extract_accounts [("ctidTraderAccount", Val.vObj o)] = Val.vList [Val.vObj o]
  ∧ extract_accounts [("ctidTraderAccount", Val.vList l)] = Val.vList l
  ∧ extract_accounts [("traderAccounts", Val.vList l)] = Val.vList l
  ∧ extract_accounts [] = Val.vList [] :=
  ⟨rfl, rfl, rfl, rfl⟩

/-- C8: encoding a well-formed envelope (an integer messageType with a
payload mapping) through `make_msg` and decoding the wire value back
reproduces the same messageType and the identical payload mapping,
whatever correlation id is supplied or generated; the JSON text layer is
the identity on these values. -/
theorem envelope_roundtrip (pt : Int) (kvs : List (String × Val))
    (cid : Option String) (fresh : String) :
    decode (make_msg pt (Val.vObj kvs) cid fresh) = Except.ok (Val.vInt pt, Val.vObj kvs) :=
  rfl

/-- C9: each of the five request builders is a pure function whose envelope
carries its fixed messageType constant and a payload holding exactly its
required inputs: 2100 with clientId and clientSecret, 2149 with
accessToken, 2102 with the account id and accessToken, 2114 with the
account id and includeArchivedSymbols (false at the only call site, the
source default), 2127 with the account id and symbolId. -/
theorem request_builders_exact (ci cs tok : String) (aid sid : Val) (b : Bool)
    (f1 f2 f3 f4 f5 : String) :
    decode (application_auth_req ci cs f1) =
      Except.ok (Val.vInt 2100,
        Val.vObj [("clientId", Val.vStr ci), ("clientSecret", Val.vStr cs)])
  ∧ decode (get_accounts_by_token_req tok f2) =
      Except.ok (Val.vInt 2149, Val.vObj [("accessToken", Val.vStr tok)])
  ∧ decode (account_auth_req aid tok f3) =
      Except.ok (Val.vInt 2102,
        Val.vObj [("ctidTraderAccountId", aid), ("accessToken", Val.vStr tok)])
  ∧ decode (symbols_list_req aid b f4) =
      Except.ok (Val.vInt 2114,
        Val.vObj [("ctidTraderAccountId", aid), ("includeArchivedSymbols", Val.vBool b)])
  ∧ decode (symbols_list_req aid false f4) =
      Except.ok (Val.vInt 2114,
        Val.vObj [("ctidTraderAccountId", aid), ("includeArchivedSymbols", Val.vBool false)])
  ∧ decode (subscribe_spots_req aid sid f5) =
      Except.ok (Val.vInt 2127,
        Val.vObj [("ctidTraderAccountId", aid), ("symbolId", sid)]) :=
  ⟨rfl, rfl, rfl, rfl, rfl, rfl⟩

/-- C10: the quote handler is total over arbitrary 2131 envelope payload
mappings: for every envelope whose discriminant is 2131 and whose payload
is a mapping (possibly empty, the default when the field is absent), the
handler emits exactly one quote report whose bid, ask and timestamp are the
looked-up values (`None` when missing), it never raises, and the streaming
loop continues with the rest of the stream. -/
theorem quote_handler_total (kvs p : List (String × Val)) (rest : List Val)
    (h1 : objGet kvs "payloadType" = Val.vInt 2131)
    (h2 : objGetD kvs "payload" (Val.vObj []) = Val.vObj p) :
    handleEvent (Val.vObj kvs) =
      Except.ok [Ev.quote (objGet p "bid") (objGet p "ask") (extract_ts p)]
  ∧ streamLoop (Val.vObj kvs :: rest) =
      Ev.quote (objGet p "bid") (objGet p "ask") (extract_ts p) :: streamLoop rest := by
  have he : handleEvent (Val.vObj kvs) =
      Except.ok [Ev.quote (objGet p "bid") (objGet p "ask") (extract_ts p)] := by
    simp [handleEvent, h1, h2, pyEqInt]
  exact ⟨he, by simp [streamLoop, he]⟩

/-- C10 witness: a 2131 envelope with no payload field at all still yields
one quote report with all three values missing, and the loop then reaches
normal closure. -/
theorem quote_handler_total_witness :
    objGet [("payloadType", Val.vInt 2131)] "payloadType" = Val.vInt 2131
  ∧ handleEvent (Val.vObj [("payloadType", Val.vInt 2131)]) =
      Except.ok [Ev.quote Val.vNone Val.vNone Val.vNone]
  ∧ streamLoop [Val.vObj [("payloadType", Val.vInt 2131)]] =
      [Ev.quote Val.vNone Val.vNone Val.vNone, Ev.connectionClosed] :=
  ⟨rfl, (quote_handler_total [("payloadType", Val.vInt 2131)] [] [] rfl rfl).1,
    (quote_handler_total [("payloadType", Val.vInt 2131)] [] [] rfl rfl).2⟩
